import Mathlib

/-!
Verification development for the bike-trainer application
(`src/trainer.rs`, `src/app.rs`): a shallow embedding of the
device-session subsystem (telemetry decoding, the session background
loop, the discovery loop with its one-shot stop signal, the bounded
update channel, and the consumer-side device registry), together with
theorems settling the specification's claims against it.

Conventions: bytes and opaque error codes are `Nat`; a Rust panic
(out-of-bounds index, `unwrap` on `None`/`Err`) is an explicit
constructor of the result type; asynchronous interleaving is modelled
by explicit schedules.
-/

namespace BikeTrainer

/-- The assigned identifier of the fitness-machine service
(`btuuid::services::FITNESS_MACHINE`), as a number. -/
def FITNESS_MACHINE : Nat := 0x1826

/-- The assigned identifier of the indoor-bike-data characteristic
(`btuuid::characteristics::INDOOR_BIKE_DATA`), as a number. -/
def INDOOR_BIKE_DATA : Nat := 0x2AD2

/-- The decoded telemetry record (`TrainerUpdate` in `src/trainer.rs`):
a single variant `Power` with speed and power fields. -/
inductive TrainerUpdate : Type
  | Power (speed : Nat) (power : Nat)
  deriving DecidableEq, Repr

/-- Outcome of one decode of a notification payload. The source
(`src/trainer.rs` lines 59-60) indexes the payload with `update[i]`,
which panics when `i` is out of bounds; `panicOOB i` records that panic
at the first out-of-bounds index evaluated. -/
inductive DecodeResult : Type
  | ok (u : TrainerUpdate)
  | panicOOB (idx : Nat)
  deriving DecidableEq, Repr

/-- Embedding of the inline decode in `src/trainer.rs` lines 59-60:
`speed = u16::from_le_bytes([update[2], update[3]])`,
`power = u16::from_le_bytes([update[4], update[5]])`.
Indices are evaluated in source order 2, 3, 4, 5; the first index past
the end of the payload is an out-of-bounds panic. `u16::from_le_bytes`
on bytes `lo, hi` is `lo + 256 * hi`. -/
def decodeIndoorBikeData (p : List Nat) : DecodeResult :=
  match p.get? 2 with
  | none => DecodeResult.panicOOB 2
  | some b2 =>
    match p.get? 3 with
    | none => DecodeResult.panicOOB 3
    | some b3 =>
      match p.get? 4 with
      | none => DecodeResult.panicOOB 4
      | some b4 =>
        match p.get? 5 with
        | none => DecodeResult.panicOOB 5
        | some b5 =>
          DecodeResult.ok (TrainerUpdate.Power (b2 + 256 * b3) (b4 + 256 * b5))

/-- One item of the notification stream obtained from
`bike_data.notify()`: either a byte payload (`Ok(update)`) or a stream
error (`Err(e)`, opaque error code). -/
inductive NotifyItem : Type
  | ok (payload : List Nat)
  | err (e : Nat)
  deriving DecidableEq, Repr

/-- A notification item is well formed when any byte payload it carries
is at least 6 bytes long, so that the fixed-offset decode stays in
bounds. -/
def NotifyItem.wf : NotifyItem → Bool
  | NotifyItem.ok p => decide (6 ≤ p.length)
  | NotifyItem.err _ => true

/-- How the session background loop (`while let Some(update) = stream.next()`,
`src/trainer.rs` lines 57-70) ends. -/
inductive LoopExit : Type
  | streamEnded
  | sendFailed
  | panicked (idx : Nat)
  deriving DecidableEq, Repr

/-- Result of running the session background loop: the updates
successfully sent on the channel in order, the number of successful
decodes, the number of `ctx.request_repaint()` calls, and how the loop
ended. -/
structure LoopResult : Type where
  sent : List TrainerUpdate
  decodes : Nat
  repaints : Nat
  exitKind : LoopExit
  deriving DecidableEq, Repr

/-- Embedding of the session background loop in `src/trainer.rs` lines
57-70. `stream` is the notification stream; `sendOk n` tells whether the
`n`-th channel send succeeds (it fails when the receiver has been
dropped); `k` counts the sends already performed. Per iteration: a
stream error item is skipped (the `if let Ok(update)` has no `else`);
an `Ok` payload is decoded (panicking out of bounds on short payloads);
on a successful decode the update is sent, and a failed send logs and
breaks, while a successful send is followed by one
`ctx.request_repaint()`. -/
def runSessionLoop : List NotifyItem → (Nat → Bool) → Nat → LoopResult
  | [], _, _ => ⟨[], 0, 0, LoopExit.streamEnded⟩
  | NotifyItem.err _ :: rest, sendOk, k => runSessionLoop rest sendOk k
  | NotifyItem.ok p :: rest, sendOk, k =>
    match decodeIndoorBikeData p with
    | DecodeResult.panicOOB i => ⟨[], 0, 0, LoopExit.panicked i⟩
    | DecodeResult.ok u =>
      if sendOk k then
        let r := runSessionLoop rest sendOk (k + 1)
        ⟨u :: r.sent, r.decodes + 1, r.repaints + 1, r.exitKind⟩
      else
        ⟨[], 1, 0, LoopExit.sendFailed⟩

/-- A characteristic of a service: its identifier and the result of
subscribing to notifications on it (`bike_data.notify().await`: an
opaque error, or the stream of items). -/
structure Characteristic : Type where
  uuid : Nat
  notifyResult : Except Nat (List NotifyItem)

/-- A service of a device: its identifier and the result of enumerating
its characteristics (`ftms.characteristics().await`). -/
structure Service : Type where
  uuid : Nat
  characteristicsResult : Except Nat (List Characteristic)

/-- A peer device: its advertised name (`device.name()` modelled as
`none` when the name is absent or errored) and the result of
enumerating its services (`device.device.services().await`). -/
structure Device : Type where
  name : Option String
  servicesResult : Except Nat (List Service)

/-- A discovered peer as produced by the scan (`AdvertisingDevice`):
it wraps the connectable device. -/
structure AdvertisingDevice : Type where
  device : Device

/-- The site of an `unwrap` panic inside the spawned session task
(`src/trainer.rs` lines 42-55). -/
inductive PanicSite : Type
  | servicesFailed
  | ftmsNotFound
  | characteristicsFailed
  | bikeDataNotFound
  | notifyFailed
  deriving DecidableEq, Repr

/-- What the spawned session task does: panic at one of its `unwrap`s
during setup, or run the notification loop to a `LoopResult`. -/
inductive SessionTaskOutcome : Type
  | panicked (site : PanicSite)
  | completed (r : LoopResult)

/-- Embedding of the body of the task spawned by `BT::connect`
(`src/trainer.rs` lines 41-71): enumerate services (`unwrap`), find the
fitness-machine service (`unwrap`), enumerate its characteristics
(`unwrap`), find the indoor-bike-data characteristic (`unwrap`),
subscribe (`unwrap`), then run the notification loop. Every `unwrap`
on a missing value panics the task. -/
def sessionTask (device : Device) (sendOk : Nat → Bool) : SessionTaskOutcome :=
  match device.servicesResult with
  | Except.error _ => SessionTaskOutcome.panicked PanicSite.servicesFailed
  | Except.ok services =>
    match services.find? (fun s => s.uuid == FITNESS_MACHINE) with
    | none => SessionTaskOutcome.panicked PanicSite.ftmsNotFound
    | some ftms =>
      match ftms.characteristicsResult with
      | Except.error _ => SessionTaskOutcome.panicked PanicSite.characteristicsFailed
      | Except.ok characteristics =>
        match characteristics.find? (fun c => c.uuid == INDOOR_BIKE_DATA) with
        | none => SessionTaskOutcome.panicked PanicSite.bikeDataNotFound
        | some bike_data =>
          match bike_data.notifyResult with
          | Except.error _ => SessionTaskOutcome.panicked PanicSite.notifyFailed
          | Except.ok stream => SessionTaskOutcome.completed (runSessionLoop stream sendOk 0)

/-- Embedding of the control flow of `BT::connect` (`src/trainer.rs`
lines 32-74). `connectDeviceResult` is the outcome of
`adapter.connect_device(&device.device)`, whose error alone is
propagated to the caller via `?`. On its success the channel is
created, the task is spawned, and `Ok(rx)` is returned to the caller
immediately: the `Except.ok` payload records what the already-detached
task does, so `Except.ok` exactly means the caller received a
receiver. -/
def BT.connect (connectDeviceResult : Except Nat Unit) (device : Device)
    (sendOk : Nat → Bool) : Except Nat SessionTaskOutcome :=
  match connectDeviceResult with
  | Except.error e => Except.error e
  | Except.ok _ => Except.ok (sessionTask device sendOk)

/-- One scheduler choice for the discovery task's `tokio::select!`
(`src/app.rs` lines 186-195): complete the stream arm
(`Some(device) = device_stream.next()`) or the stop arm
(`_ = &mut rx_stop`). The stop arm can only be chosen once the
one-shot stop signal is observable by the task. -/
inductive DisChoice : Type
  | takeItem
  | takeStop
  deriving DecidableEq, Repr

/-- Whether the discovery task has terminated and why: `stoppedBySignal`
is the normal `break` after observing the stop signal; `pendingMore`
means the schedule ran out while the task was still looping. -/
inductive DiscoveryStatus : Type
  | stoppedBySignal
  | pendingMore
  deriving DecidableEq, Repr

/-- Result of running the discovery task under a schedule: the devices
forwarded onto the discovery channel, in order, and the task status. -/
structure DiscoveryRun : Type where
  forwarded : List AdvertisingDevice
  status : DiscoveryStatus

/-- Embedding of the discovery loop spawned by `App::start_discover`
(`src/app.rs` lines 182-197). `ds` is the (filtered) advertisement
stream; each schedule entry selects one `tokio::select!` arm. The
stream arm forwards the next device on the channel and loops; the stop
arm logs and `break`s at once, forwarding nothing further. Choosing the
stream arm when no advertisement is available is a no-op (that arm is
simply not ready). -/
def runDiscovery : List AdvertisingDevice → List DisChoice → DiscoveryRun
  | _, [] => ⟨[], DiscoveryStatus.pendingMore⟩
  | _, DisChoice.takeStop :: _ => ⟨[], DiscoveryStatus.stoppedBySignal⟩
  | [], DisChoice.takeItem :: cs => runDiscovery [] cs
  | d :: ds, DisChoice.takeItem :: cs =>
    let r := runDiscovery ds cs
    ⟨d :: r.forwarded, r.status⟩

/-- Capacity of the bounded update channel created by `BT::connect`
(`mpsc::channel(1024)`, `src/trainer.rs` line 39). -/
def chanCap : Nat := 1024

/-- Joint state of the session task (producer) and the consumer polling
the update channel. `pending` is the unprocessed tail of the
notification stream; `buf` is the channel buffer, oldest first;
`senderDropped` records that the task has ended and its sending half
was dropped; `received` is what the consumer has taken off the channel,
in order; `prodDone` records that the producer has terminated (stream
end or panic). The consumer holds the receiver throughout, so sends
never fail in this machine; a send onto a full buffer blocks. -/
structure SysState : Type where
  pending : List NotifyItem
  buf : List TrainerUpdate
  senderDropped : Bool
  received : List TrainerUpdate
  prodDone : Bool
  deriving DecidableEq, Repr

/-- One producer step of the session task (`src/trainer.rs` lines
57-70) against the bounded channel: stream end or a decode panic ends
the task and drops the sender; an error item is skipped; a decoded
update is enqueued when the buffer has room, and otherwise the send
blocks — the state is unchanged and nothing is dropped
(backpressure). -/
def prodStep (s : SysState) : SysState :=
  if s.prodDone then s
  else
    match s.pending with
    | [] => { s with prodDone := true, senderDropped := true }
    | NotifyItem.err _ :: rest => { s with pending := rest }
    | NotifyItem.ok p :: rest =>
      match decodeIndoorBikeData p with
      | DecodeResult.panicOOB _ => { s with prodDone := true, senderDropped := true }
      | DecodeResult.ok u =>
        if s.buf.length < chanCap then { s with pending := rest, buf := s.buf ++ [u] }
        else s

/-- Result of the consumer's non-blocking `try_recv` on the update
channel (tokio mpsc semantics, as the spec describes them): the oldest
buffered item when one exists; otherwise `closed` when the sending half
has been dropped, else `empty`. -/
inductive TryRecvResult : Type
  | item (u : TrainerUpdate)
  | empty
  | closed
  deriving DecidableEq, Repr

/-- The consumer's `try_recv` against the channel state: dequeues the
oldest buffered update and appends it to `received`; on an empty buffer
reports `closed` exactly when the sender has been dropped. -/
def tryRecvSys (s : SysState) : TryRecvResult × SysState :=
  match s.buf with
  | u :: rest => (TryRecvResult.item u, { s with buf := rest, received := s.received ++ [u] })
  | [] => if s.senderDropped then (TryRecvResult.closed, s) else (TryRecvResult.empty, s)

/-- One consumer step: perform `try_recv` and keep the new state. -/
def consStep (s : SysState) : SysState := (tryRecvSys s).2

/-- Run the producer/consumer system under an interleaving schedule:
`true` steps the producer, `false` steps the consumer. -/
def sysRun (s : SysState) : List Bool → SysState
  | [] => s
  | true :: sch => sysRun (prodStep s) sch
  | false :: sch => sysRun (consStep s) sch

/-- Initial system state for a given notification stream. -/
def initSys (notifs : List NotifyItem) : SysState :=
  ⟨notifs, [], false, [], false⟩

/-- The ideal ordered sequence of updates the session task decodes from
a notification stream: error items contribute nothing, each `Ok`
payload contributes its decode, and a decode panic ends the task so the
rest contributes nothing. -/
def sessionDecodes : List NotifyItem → List TrainerUpdate
  | [] => []
  | NotifyItem.err _ :: rest => sessionDecodes rest
  | NotifyItem.ok p :: rest =>
    match decodeIndoorBikeData p with
    | DecodeResult.ok u => u :: sessionDecodes rest
    | DecodeResult.panicOOB _ => []

/-- Whether a notification item is a stream error (`Err(_)`). -/
def NotifyItem.isErr : NotifyItem → Bool
  | NotifyItem.err _ => true
  | NotifyItem.ok _ => false

/-- The consumer-side device registry (`devices: HashMap<String,
AdvertisingDevice>` in `src/app.rs`), as a map from display name to the
stored device. -/
def Registry : Type := String → Option AdvertisingDevice

/-- `HashMap::insert`: store `d` under `k`, overwriting any previous
entry with that key. -/
def Registry.insert (m : Registry) (k : String) (d : AdvertisingDevice) : Registry :=
  fun k' => if k' = k then some d else m k'

/-- The discovery branch of `App::update_discovery` (`src/app.rs` lines
160-165): the received device is stored under
`device.device.name().unwrap_or("UNKNOWN")`. -/
def updateDiscoveryInsert (m : Registry) (d : AdvertisingDevice) : Registry :=
  Registry.insert m (d.device.name.getD "UNKNOWN") d

/-- The consumer-side fields of `App` that `stop_discover` can touch or
must leave alone: the device registry, the stored one-shot stop handle
(opaque), and the discovery receiver (opaque). -/
structure AppState : Type where
  devices : Registry
  discover_stop : Option Unit
  discover_rx : Option Unit

/-- Observable effects of one `App::stop_discover` call, in program
order: clearing the registry, then (when a stop handle was stored)
sending the one-shot stop signal. -/
inductive StopEffect : Type
  | clearedDevices
  | sentStopSignal
  deriving DecidableEq, Repr

/-- Embedding of `App::stop_discover` (`src/app.rs` lines 203-211):
`self.devices.clear()`, then `self.discover_stop.take()`, then
`tx.send(())` only when the taken handle was present. The returned
effect list is in execution order. `discover_rx` is not mentioned by
the source and is carried through unchanged. -/
def stopDiscover (s : AppState) : AppState × List StopEffect :=
  let cleared : Registry := fun _ => none
  match s.discover_stop with
  | some _ =>
    ({ devices := cleared, discover_stop := none, discover_rx := s.discover_rx },
      [StopEffect.clearedDevices, StopEffect.sentStopSignal])
  | none =>
    ({ devices := cleared, discover_stop := none, discover_rx := s.discover_rx },
      [StopEffect.clearedDevices])

/-- The empty device registry. -/
def emptyRegistry : Registry := fun _ => none

/-- A concrete nameless discovered device used in witness statements. -/
def sampleNamelessA : AdvertisingDevice :=
  { device := { name := none, servicesResult := Except.ok [] } }

/-- A second, distinct concrete nameless discovered device used in
witness statements. -/
def sampleNamelessB : AdvertisingDevice :=
  { device := { name := none, servicesResult := Except.error 0 } }

/-- A concrete 6-byte payload: flags bytes 0, speed `0x10 = 16`,
power `0x64 = 100`, both little-endian. -/
def samplePayload : List Nat := [0, 0, 16, 0, 100, 0]

/-! ## Helper lemmas -/

/-- Decoding any payload of at least 6 bytes stays in bounds and
produces an update. -/
theorem decode_ok_of_six_le {p : List Nat} (h : 6 ≤ p.length) :
    ∃ u, decodeIndoorBikeData p = DecodeResult.ok u := by
  match p with
  | a :: b :: c :: d :: e :: f :: rest =>
    exact ⟨TrainerUpdate.Power (c + 256 * d) (e + 256 * f), rfl⟩
  | [] | [_] | [_, _] | [_, _, _] | [_, _, _, _] | [_, _, _, _, _] =>
    simp at h

/-! ## Claim theorems -/

/-- C1: the claim says a payload shorter than 6 bytes fails with
`MalformedPayload` and never reads out of bounds. The code has no such
check and no `MalformedPayload` error at all: for every payload shorter
than 6 bytes it evaluates an out-of-bounds index — the first one is
index 2 for payloads of length at most 2, and the payload's length
itself otherwise — and panics there. -/
theorem decode_short_payload_reads_out_of_bounds :
    ∀ p : List Nat, p.length < 6 →
      decodeIndoorBikeData p = DecodeResult.panicOOB (max 2 p.length) := by
  intro p hp
  match p with
  | [] => rfl
  | [_] => rfl
  | [_, _] => rfl
  | [_, _, _] => rfl
  | [_, _, _, _] => rfl
  | [_, _, _, _, _] => rfl
  | _ :: _ :: _ :: _ :: _ :: _ :: rest =>
    exfalso
    simp only [List.length_cons] at hp
    omega

/-- Witness for C1 at the concrete 3-byte payload `[0, 0, 0]`: the
decode evaluates index 3, past the end of the payload. -/
theorem decode_short_payload_reads_out_of_bounds_witness :
    ([0, 0, 0] : List Nat).length < 6 ∧
      decodeIndoorBikeData [0, 0, 0] =
        DecodeResult.panicOOB (max 2 ([0, 0, 0] : List Nat).length) :=
  ⟨by decide, decode_short_payload_reads_out_of_bounds [0, 0, 0] (by decide)⟩

/-- C2: the claim says that when the enumerated services lack the
fitness-machine identifier, `connect` fails with `ServiceNotFound`
reported to the caller. In the code the service lookup happens inside
the spawned task, after `connect` has already handed `Ok(rx)` to the
caller: for every such device the caller receives a receiver (the
`Except.ok` below), no error of any kind reaches it, and the detached
task panics on the `unwrap` of the failed `find`. -/
theorem connect_missing_service_is_ok_to_caller :
    ∀ (services : List Service) (sendOk : Nat → Bool) (nm : Option String),
      services.find? (fun s => s.uuid == FITNESS_MACHINE) = none →
      BT.connect (Except.ok ()) { name := nm, servicesResult := Except.ok services } sendOk =
        Except.ok (SessionTaskOutcome.panicked PanicSite.ftmsNotFound) := by
  intro services sendOk nm h
  simp [BT.connect, sessionTask, h]

/-- Witness for C2 at a device enumerating no services at all: the
caller gets `Ok` and the task panics at the service lookup. -/
theorem connect_missing_service_is_ok_to_caller_witness :
    BT.connect (Except.ok ()) { name := none, servicesResult := Except.ok [] }
        (fun _ => true) =
      Except.ok (SessionTaskOutcome.panicked PanicSite.ftmsNotFound) :=
  connect_missing_service_is_ok_to_caller [] (fun _ => true) none rfl

/-- C3: decoding the 6-byte payload `[0, 0, 0x10, 0x00, 0x64, 0x00]`
yields `Power` with speed 16 and power 100; and in general, on any
payload of at least 6 bytes, speed is the little-endian 16-bit value at
offsets 2-3 and power the one at offsets 4-5. -/
theorem decode_sample_payload :
    decodeIndoorBikeData [0, 0, 0x10, 0x00, 0x64, 0x00] =
      DecodeResult.ok (TrainerUpdate.Power 16 100)
    ∧ ∀ (b0 b1 b2 b3 b4 b5 : Nat) (rest : List Nat),
        decodeIndoorBikeData (b0 :: b1 :: b2 :: b3 :: b4 :: b5 :: rest) =
          DecodeResult.ok (TrainerUpdate.Power (b2 + 256 * b3) (b4 + 256 * b5)) := by
  refine ⟨rfl, ?_⟩
  intro b0 b1 b2 b3 b4 b5 rest
  rfl

/-- C7 counterexample: a decode can succeed without any repaint. With a
dropped receiver, the single valid payload is decoded (one successful
decode) but the failed send breaks out of the loop before
`ctx.request_repaint()` is reached, so the repaint count is zero — the
repaint is not invoked once per successful decode. -/
theorem repaint_skipped_when_send_fails :
    (runSessionLoop [NotifyItem.ok samplePayload] (fun _ => false) 0).decodes = 1
    ∧ (runSessionLoop [NotifyItem.ok samplePayload] (fun _ => false) 0).repaints = 0
    ∧ (runSessionLoop [NotifyItem.ok samplePayload] (fun _ => false) 0).repaints ≠
        (runSessionLoop [NotifyItem.ok samplePayload] (fun _ => false) 0).decodes :=
  ⟨rfl, rfl, by decide⟩

/-- C7 amended: the task requests a repaint exactly once per update
successfully sent on the channel (repaint count = number of sent
updates); a decode whose send fails, because the receiver was dropped,
triggers no repaint and terminates the task. -/
theorem repaint_once_per_successful_send :
    ∀ (stream : List NotifyItem) (sendOk : Nat → Bool) (k : Nat),
      (runSessionLoop stream sendOk k).repaints =
        (runSessionLoop stream sendOk k).sent.length := by
  intro stream
  induction stream with
  | nil => intro sendOk k; rfl
  | cons x rest ih =>
    intro sendOk k
    cases x with
    | err e =>
      simp only [runSessionLoop]
      exact ih sendOk k
    | ok p =>
      simp only [runSessionLoop]
      cases hd : decodeIndoorBikeData p with
      | panicOOB i => rfl
      | ok u =>
        by_cases hs : sendOk k
        · simp only [hs, if_true, List.length_cons]
          exact congrArg (· + 1) (ih sendOk (k + 1))
        · simp [hs]

/-- C10: a stream error item is skipped whole — no decode, no send, no
repaint — and the loop continues with the next notification: running
the loop on any block of error items followed by a remainder gives
exactly the run of the remainder, in every field of the result. -/
theorem error_items_are_skipped :
    ∀ (errs rest : List NotifyItem) (sendOk : Nat → Bool) (k : Nat),
      (∀ x ∈ errs, x.isErr = true) →
      runSessionLoop (errs ++ rest) sendOk k = runSessionLoop rest sendOk k := by
  intro errs
  induction errs with
  | nil => intro rest sendOk k _; rfl
  | cons x xs ih =>
    intro rest sendOk k h
    cases x with
    | err e =>
      simp only [List.cons_append, runSessionLoop]
      exact ih rest sendOk k fun y hy => h y (List.mem_cons_of_mem _ hy)
    | ok p =>
      have hx := h (NotifyItem.ok p) (List.mem_cons_self _ _)
      simp [NotifyItem.isErr] at hx

/-- Witness for C10: one concrete error item in front of one valid
payload, with a live receiver. -/
theorem error_items_are_skipped_witness :
    runSessionLoop ([NotifyItem.err 7] ++ [NotifyItem.ok samplePayload]) (fun _ => true) 0 =
      runSessionLoop [NotifyItem.ok samplePayload] (fun _ => true) 0 :=
  error_items_are_skipped [NotifyItem.err 7] [NotifyItem.ok samplePayload]
    (fun _ => true) 0 (by decide)

/-- C8: a discovered device whose advertisement carries no name is
stored in the registry under the fixed key `"UNKNOWN"`, and a second
nameless discovery overwrites the first entirely: inserting two
nameless devices leaves the registry exactly as if only the second had
been inserted. -/
theorem nameless_devices_share_unknown_key :
    ∀ (m : Registry) (d1 d2 : AdvertisingDevice),
      d1.device.name = none → d2.device.name = none →
      updateDiscoveryInsert m d1 "UNKNOWN" = some d1
      ∧ updateDiscoveryInsert (updateDiscoveryInsert m d1) d2 = updateDiscoveryInsert m d2 := by
  intro m d1 d2 h1 h2
  constructor
  · simp [updateDiscoveryInsert, Registry.insert, h1]
  · funext k'
    by_cases hk : k' = "UNKNOWN" <;>
      simp [updateDiscoveryInsert, Registry.insert, h1, h2, hk]

/-- Witness for C8 at two concrete nameless devices over the empty
registry. -/
theorem nameless_devices_share_unknown_key_witness :
    updateDiscoveryInsert emptyRegistry sampleNamelessA "UNKNOWN" = some sampleNamelessA
    ∧ updateDiscoveryInsert (updateDiscoveryInsert emptyRegistry sampleNamelessA)
        sampleNamelessB = updateDiscoveryInsert emptyRegistry sampleNamelessB :=
  nameless_devices_share_unknown_key emptyRegistry sampleNamelessA sampleNamelessB rfl rfl

/-- C9: `stop_discover` empties the device registry, and does so before
any stop signal is sent (the effect trace lists `clearedDevices` ahead
of `sentStopSignal`); it takes the stored stop handle, so a second call
without an intervening start emits no stop signal; and it leaves the
discovery receiver field unchanged. -/
theorem stop_discover_clears_takes_and_frames :
    ∀ s : AppState,
      (stopDiscover s).1.devices = (fun _ => none)
      ∧ (stopDiscover s).1.discover_stop = none
      ∧ (stopDiscover s).1.discover_rx = s.discover_rx
      ∧ (stopDiscover s).2 =
          (if s.discover_stop.isSome then
            [StopEffect.clearedDevices, StopEffect.sentStopSignal]
          else [StopEffect.clearedDevices])
      ∧ (stopDiscover (stopDiscover s).1).2 = [StopEffect.clearedDevices] := by
  intro s
  cases h : s.discover_stop <;> simp [stopDiscover, h]

/-- C4: whatever the scheduler does after the discovery task observes
the stop signal is irrelevant — the run over `pre` followed by the stop
observation and any continuation `post` equals the run that ends right
at the stop observation, so no further device is forwarded onto the
discovery channel after the signal is observed; and such a run ends in
the normal `stoppedBySignal` status, not an error. -/
theorem discovery_forwards_nothing_after_stop :
    ∀ (ds : List AdvertisingDevice) (pre post : List DisChoice),
      runDiscovery ds (pre ++ DisChoice.takeStop :: post) =
        runDiscovery ds (pre ++ [DisChoice.takeStop])
      ∧ (runDiscovery ds (pre ++ DisChoice.takeStop :: post)).status =
          DiscoveryStatus.stoppedBySignal := by
  intro ds pre post
  induction pre generalizing ds with
  | nil => constructor <;> cases ds <;> simp [runDiscovery]
  | cons c cs ih =>
    cases c with
    | takeStop => constructor <;> cases ds <;> simp [runDiscovery]
    | takeItem =>
      cases ds with
      | nil => simpa [runDiscovery] using ih []
      | cons d ds' =>
        obtain ⟨h1, h2⟩ := ih ds'
        constructor
        · simp [runDiscovery, h1]
        · simp [runDiscovery, h2]

/-- On a stream whose byte payloads all have at least 6 bytes, the
session loop ends either with the stream running out or with a failed
send — never with a panic. -/
theorem session_loop_exit_aux :
    ∀ (stream : List NotifyItem) (sendOk : Nat → Bool) (k : Nat),
      (∀ x ∈ stream, x.wf = true) →
      (runSessionLoop stream sendOk k).exitKind = LoopExit.streamEnded
      ∨ (runSessionLoop stream sendOk k).exitKind = LoopExit.sendFailed := by
  intro stream
  induction stream with
  | nil => intro sendOk k _; left; rfl
  | cons x rest ih =>
    intro sendOk k h
    cases x with
    | err e =>
      simp only [runSessionLoop]
      exact ih sendOk k fun y hy => h y (List.mem_cons_of_mem _ hy)
    | ok p =>
      have hw := h (NotifyItem.ok p) (List.mem_cons_self _ _)
      simp only [NotifyItem.wf, decide_eq_true_eq] at hw
      obtain ⟨u, hu⟩ := decode_ok_of_six_le hw
      simp only [runSessionLoop, hu]
      by_cases hs : sendOk k
      · simp only [hs, if_true]
        exact ih sendOk (k + 1) fun y hy => h y (List.mem_cons_of_mem _ hy)
      · simp only [hs, if_false]
        right
        rfl

/-- C5 counterexample: the loop has a third way to terminate. With a
live receiver and the single 1-byte payload `[0]`, the loop ends by
panicking at out-of-bounds index 2 — neither a failed send nor the
stream ending. -/
theorem session_loop_third_exit_on_short_payload :
    (runSessionLoop [NotifyItem.ok [0]] (fun _ => true) 0).exitKind = LoopExit.panicked 2
    ∧ LoopExit.panicked 2 ≠ LoopExit.streamEnded
    ∧ LoopExit.panicked 2 ≠ LoopExit.sendFailed :=
  ⟨rfl, by decide, by decide⟩

/-- C5 amended: provided every byte payload on the notification stream
has at least 6 bytes (the code lacks the bound check and panics
otherwise), the session loop terminates in exactly two ways — a failed
channel send (receiver dropped) or the notification stream ending — and
once the task has ended and the sending half is dropped, a receive on
the drained channel reports closed. -/
theorem session_loop_two_exit_ways :
    ∀ (stream : List NotifyItem) (sendOk : Nat → Bool) (k : Nat),
      (∀ x ∈ stream, x.wf = true) →
      ((runSessionLoop stream sendOk k).exitKind = LoopExit.streamEnded
        ∨ (runSessionLoop stream sendOk k).exitKind = LoopExit.sendFailed)
      ∧ (∀ s : SysState, s.senderDropped = true → s.buf = [] →
          (tryRecvSys s).1 = TryRecvResult.closed) := by
  intro stream sendOk k h
  refine ⟨session_loop_exit_aux stream sendOk k h, ?_⟩
  intro s h1 h2
  simp [tryRecvSys, h1, h2]

/-- Witness for C5 at a concrete well-formed stream and a concrete
drained, sender-dropped channel state. -/
theorem session_loop_two_exit_ways_witness :
    ((runSessionLoop [NotifyItem.ok samplePayload] (fun _ => true) 0).exitKind =
        LoopExit.streamEnded
      ∨ (runSessionLoop [NotifyItem.ok samplePayload] (fun _ => true) 0).exitKind =
          LoopExit.sendFailed)
    ∧ (tryRecvSys ⟨[], [], true, [], true⟩).1 = TryRecvResult.closed :=
  ⟨(session_loop_two_exit_ways [NotifyItem.ok samplePayload] (fun _ => true) 0
      (by decide)).1,
   (session_loop_two_exit_ways [NotifyItem.ok samplePayload] (fun _ => true) 0
      (by decide)).2 ⟨[], [], true, [], true⟩ rfl rfl⟩

/-- One producer step preserves the delivery invariant: what the
consumer has received followed by what is buffered is always an initial
segment of the full decoded sequence, the remainder being the decodes
of the unprocessed stream while the producer is alive. -/
theorem prodStep_preserves :
    ∀ (s : SysState) (full : List TrainerUpdate),
      (∃ t, s.received ++ s.buf ++ t = full
        ∧ (s.prodDone = false → t = sessionDecodes s.pending)) →
      ∃ t, (prodStep s).received ++ (prodStep s).buf ++ t = full
        ∧ ((prodStep s).prodDone = false → t = sessionDecodes (prodStep s).pending) := by
  intro s full h
  obtain ⟨t, ht, hp⟩ := h
  by_cases hd : s.prodDone
  · have hps : prodStep s = s := by simp [prodStep, hd]
    rw [hps]
    exact ⟨t, ht, hp⟩
  · have hfalse : s.prodDone = false := by simpa using hd
    have ht' : t = sessionDecodes s.pending := hp hfalse
    subst ht'
    cases hpend : s.pending with
    | nil =>
      have hps : prodStep s = { s with prodDone := true, senderDropped := true } := by
        simp [prodStep, hfalse, hpend]
      refine ⟨[], ?_, ?_⟩
      · rw [hps]
        simpa [hpend, sessionDecodes] using ht
      · rw [hps]
        simp
    | cons x rest =>
      cases x with
      | err e =>
        have hps : prodStep s = { s with pending := rest } := by
          simp [prodStep, hfalse, hpend]
        refine ⟨sessionDecodes rest, ?_, ?_⟩
        · rw [hps]
          simpa [hpend, sessionDecodes] using ht
        · rw [hps]
          intro _
          rfl
      | ok p =>
        cases hdec : decodeIndoorBikeData p with
        | panicOOB i =>
          have hps : prodStep s = { s with prodDone := true, senderDropped := true } := by
            simp [prodStep, hfalse, hpend, hdec]
          refine ⟨[], ?_, ?_⟩
          · rw [hps]
            simpa [hpend, sessionDecodes, hdec] using ht
          · rw [hps]
            simp
        | ok u =>
          by_cases hlen : s.buf.length < chanCap
          · have hps : prodStep s = { s with pending := rest, buf := s.buf ++ [u] } := by
              simp [prodStep, hfalse, hpend, hdec, hlen]
            refine ⟨sessionDecodes rest, ?_, ?_⟩
            · rw [hps]
              have ht2 : s.received ++ s.buf ++ (u :: sessionDecodes rest) = full := by
                simpa [hpend, sessionDecodes, hdec] using ht
              simpa [List.append_assoc] using ht2
            · rw [hps]
              intro _
              rfl
          · have hps : prodStep s = s := by
              simp [prodStep, hfalse, hpend, hdec, hlen]
            rw [hps]
            exact ⟨sessionDecodes s.pending, ht, fun _ => rfl⟩

/-- One consumer step preserves the delivery invariant: `try_recv`
moves the oldest buffered update to the end of the received list. -/
theorem consStep_preserves :
    ∀ (s : SysState) (full : List TrainerUpdate),
      (∃ t, s.received ++ s.buf ++ t = full
        ∧ (s.prodDone = false → t = sessionDecodes s.pending)) →
      ∃ t, (consStep s).received ++ (consStep s).buf ++ t = full
        ∧ ((consStep s).prodDone = false → t = sessionDecodes (consStep s).pending) := by
  intro s full h
  obtain ⟨t, ht, hp⟩ := h
  cases hb : s.buf with
  | nil =>
    have hcs : consStep s = s := by
      cases hsd : s.senderDropped <;> simp [consStep, tryRecvSys, hb, hsd]
    rw [hcs]
    exact ⟨t, ht, hp⟩
  | cons a rest =>
    have hcs : consStep s = { s with buf := rest, received := s.received ++ [a] } := by
      simp [consStep, tryRecvSys, hb]
    refine ⟨t, ?_, ?_⟩
    · rw [hcs]
      rw [hb] at ht
      simpa [List.append_assoc] using ht
    · rw [hcs]
      simpa using hp

/-- Running the system under any schedule preserves the delivery
invariant. -/
theorem sysRun_preserves :
    ∀ (sch : List Bool) (s : SysState) (full : List TrainerUpdate),
      (∃ t, s.received ++ s.buf ++ t = full
        ∧ (s.prodDone = false → t = sessionDecodes s.pending)) →
      ∃ t, (sysRun s sch).received ++ (sysRun s sch).buf ++ t = full
        ∧ ((sysRun s sch).prodDone = false →
            t = sessionDecodes (sysRun s sch).pending) := by
  intro sch
  induction sch with
  | nil => intro s full h; exact h
  | cons b sch ih =>
    intro s full h
    cases b with
    | false => exact ih (consStep s) full (consStep_preserves s full h)
    | true => exact ih (prodStep s) full (prodStep_preserves s full h)

/-- C6: under every interleaving of the session task with the consumer,
the sequence of updates the consumer has received is an initial segment
of the decoded notification sequence in device order — the channel
delivers in FIFO order and drops nothing; and a send against a full
buffer blocks, leaving the state exactly as it was (backpressure)
rather than dropping the oldest or newest item. -/
theorem updates_delivered_in_order :
    ∀ (notifs : List NotifyItem) (sch : List Bool),
      (∃ rest, (sysRun (initSys notifs) sch).received ++ rest = sessionDecodes notifs)
      ∧ (∀ (s : SysState) (p : List Nat) (rest : List NotifyItem) (u : TrainerUpdate),
          s.prodDone = false → s.pending = NotifyItem.ok p :: rest →
          decodeIndoorBikeData p = DecodeResult.ok u → chanCap ≤ s.buf.length →
          prodStep s = s) := by
  intro notifs sch
  constructor
  · have hinv := sysRun_preserves sch (initSys notifs) (sessionDecodes notifs)
      ⟨sessionDecodes notifs, by simp [initSys], fun _ => rfl⟩
    obtain ⟨t, ht, _⟩ := hinv
    exact ⟨(sysRun (initSys notifs) sch).buf ++ t, by simpa [List.append_assoc] using ht⟩
  · intro s p rest u h1 h2 h3 h4
    have hlen : ¬ s.buf.length < chanCap := not_lt.mpr h4
    simp [prodStep, h1, h2, h3, hlen]

/-- Witness for C6: a run on one valid payload with a
producer-then-consumer schedule, and a concrete state whose buffer
holds `chanCap` items, on which the producer step is a blocked
no-op. -/
theorem updates_delivered_in_order_witness :
    (∃ rest, (sysRun (initSys [NotifyItem.ok samplePayload]) [true, false]).received ++ rest =
        sessionDecodes [NotifyItem.ok samplePayload])
    ∧ prodStep ⟨[NotifyItem.ok samplePayload],
          List.replicate chanCap (TrainerUpdate.Power 0 0), false, [], false⟩ =
        ⟨[NotifyItem.ok samplePayload],
          List.replicate chanCap (TrainerUpdate.Power 0 0), false, [], false⟩ :=
  ⟨(updates_delivered_in_order [NotifyItem.ok samplePayload] [true, false]).1,
   (updates_delivered_in_order [NotifyItem.ok samplePayload] [true, false]).2
     ⟨[NotifyItem.ok samplePayload],
       List.replicate chanCap (TrainerUpdate.Power 0 0), false, [], false⟩
     samplePayload [] (TrainerUpdate.Power 16 100) rfl rfl rfl (by simp)⟩

end BikeTrainer
